import Mathlib

/-!
Verification of the marketplace frontend's authentication/session core
(`frontend/src/App.js`): token codec, session store, auth session manager,
role-gated view routing, API gateway client, and the admin settings save
handler. Each part of the source is shallowly embedded as an executable
Lean definition; the theorems below settle the specified properties.
-/

namespace Marketplace

/-- A JSON-like value, modelling the JavaScript values flowing through the
client (request bodies, response payloads, settings blobs). -/
inductive JsonVal where
  | str (s : String)
  | num (n : Int)
  | boolean (b : Bool)
  | null
  | obj (fields : List (String × JsonVal))
  | arr (elems : List JsonVal)

/-- JavaScript truthiness for `JsonVal` values: empty string, zero, `false`
and `null` are falsy; objects and arrays are always truthy. Mirrors the
`if (data)` / `if (token)` guards in `apiCall`. -/
def truthy : JsonVal → Bool
  | .str s => !(s == "")
  | .num n => !(n == 0)
  | .boolean b => b
  | .null => false
  | .obj _ => true
  | .arr _ => true

/-- Decoded token claims. In `App.js` the payload is
`JSON.parse(atob(token.split('.')[1]))` and the fields read from it are
`user_id`, `user_type` and `exp` (Unix-epoch seconds, a number). -/
structure Claims where
  user_id : String
  user_type : String
  exp : Int
deriving DecidableEq, Repr

/-- The user object held by the auth context: `{id, user_type}`
(built from claims in the restore effect, or supplied by the caller of
`login`). -/
structure UserData where
  id : String
  user_type : String
deriving DecidableEq, Repr

/-! ## Session Store (`localStorage`) -/

/-- `localStorage`: a map from string keys to optional string values. -/
abbrev Store := String → Option String

/-- `localStorage.getItem(k)`. -/
def getItem (st : Store) (k : String) : Option String := st k

/-- `localStorage.setItem(k, v)`: overwrites any prior value at `k`. -/
def setItem (st : Store) (k v : String) : Store :=
  fun k2 => if k2 = k then some v else st k2

/-- `localStorage.removeItem(k)`. -/
def removeItem (st : Store) (k : String) : Store :=
  fun k2 => if k2 = k then none else st k2

/-- A store with nothing persisted. -/
def emptyStore : Store := fun _ => none

/-! ## Token Codec -/

/-- `String.split('.')` of JavaScript on a list of characters: splits at
every `'.'`, keeping empty segments, and yields `[""]` on the empty
string — exactly JS semantics. -/
def splitDot : List Char → List (List Char)
  | [] => [[]]
  | c :: rest =>
    if c = '.' then [] :: splitDot rest
    else
      match splitDot rest with
      | [] => [[c]]
      | seg :: segs => (c :: seg) :: segs

/-- `token.split('.')[1]`: the middle (payload) segment of a credential,
or `none` when the credential has fewer than two `'.'`-separated segments
(in which case `atob(undefined)` throws in the source and decoding
fails). -/
def middleSegment (t : String) : Option String :=
  ((splitDot t.data)[1]?).map (fun cs => String.mk cs)

/-- `JSON.parse(atob(token.split('.')[1]))`, reading the `user_id`,
`user_type` and `exp` fields. The composite `atob` + `JSON.parse` step is
a browser primitive, so it is abstracted as a payload decoder
`dec : String → Option Claims`; `none` models a thrown decoding error or
a payload without a numeric `exp` (which the source also treats by
clearing the stored token). The segment selection itself is concrete:
decoding reads only the middle segment. -/
def jwtDecode (dec : String → Option Claims) (t : String) : Option Claims :=
  match middleSegment t with
  | none => none
  | some seg => dec seg

/-! ## Auth Session Manager (`AuthProvider`) -/

/-- The auth context state: the persisted store, the `token` state
variable (initialised from `localStorage.getItem('token')` and kept in
sync with it), the `user` state variable, and the `loading` flag. -/
structure Session where
  store : Store
  token : Option String
  user : Option UserData
  loading : Bool

/-- The state of `AuthProvider` at mount: `user = null`,
`token = localStorage.getItem('token')`, `loading = true`. -/
def initSession (st : Store) : Session :=
  { store := st, token := getItem st "token", user := none, loading := true }

/-- One run of the `AuthProvider` effect body (the `useEffect` with
dependency `[token]`, which fires at mount and again after every
`setToken`), at current time `nowMs = Date.now()` in milliseconds: if a
token is present it is decoded; a valid unexpired token
(`payload.exp * 1000 > Date.now()`) populates `user` from the decoded
claims; an expired or undecodable token is removed from storage and the
token state cleared — `user` is not touched in those branches; in every
case `loading` ends `false`. Applied to the mount state `initSession st`
this is the startup restore; applied to a post-`login` state it is the
re-run the `setToken(newToken)` call triggers. The states it produces
are settled: the only re-run it can trigger is on a nulled token, which
changes nothing further. -/
def restore (dec : String → Option Claims) (s : Session) (nowMs : Int) : Session :=
  match s.token with
  | none => { s with loading := false }
  | some t =>
    match jwtDecode dec t with
    | none =>
      { s with store := removeItem s.store "token", token := none, loading := false }
    | some claims =>
      if claims.exp * 1000 > nowMs then
        { s with user := some ⟨claims.user_id, claims.user_type⟩, loading := false }
      else
        { s with store := removeItem s.store "token", token := none, loading := false }

/-- The three setters of `login(newToken, userData)`: persists the
credential under `'token'`, sets the token state, sets `user` from the
server-supplied login response. This is only the synchronous body of
`login`; the `setToken` call additionally re-triggers the `[token]`
effect, so the state the application settles in after a login is
`loginSettled`, not this intermediate state. -/
def login (s : Session) (newToken : String) (userData : UserData) : Session :=
  { s with store := setItem s.store "token" newToken
         , token := some newToken
         , user := some userData }

/-- `logout()`: removes the persisted credential, clears the token state
and the user. -/
def logout (s : Session) : Session :=
  { s with store := removeItem s.store "token", token := none, user := none }

/-- The four top-level views the root component can render. -/
inductive View where
  | loadingView
  | publicStore
  | adminPanel
  | dashboard
deriving DecidableEq, Repr

/-- The root `App` render: loading spinner while `loading`; `PublicStore`
when no user; `renderAdminContent` otherwise, which shows the admin panel
for `user_type === 'admin'` and the generic `Dashboard` for any other
role. -/
def selectView (s : Session) : View :=
  if s.loading then View.loadingView
  else
    match s.user with
    | none => View.publicStore
    | some u => if u.user_type = "admin" then View.adminPanel else View.dashboard

/-- The view matching a role, per the routing table: `admin` gets the
admin panel, any other authenticated role the generic dashboard. -/
def roleView (role : String) : View :=
  if role = "admin" then View.adminPanel else View.dashboard

/-! ## API Gateway Client (`apiCall`) -/

/-- The axios request configuration `apiCall` builds: method, URL, the
optional `Authorization` and `Content-Type` headers, and the optional
body. -/
structure RequestConfig where
  method : String
  url : String
  authHeader : Option String
  contentTypeHeader : Option String
  data : Option JsonVal

/-- The request-building half of `apiCall(endpoint, method, data, token)`:
`url` is the configured base API prefixed to the endpoint;
`Authorization: Bearer <token>` is attached under the JS-truthy guard
`if (token)` (so a `null` or empty-string token attaches nothing); the
body and `Content-Type: application/json` are attached under the JS-truthy
guard `if (data)`. -/
def apiCallConfig (baseApi endpoint method : String) (data : Option JsonVal)
    (token : Option String) : RequestConfig :=
  { method := method
  , url := baseApi ++ endpoint
  , authHeader :=
      match token with
      | some t => if t = "" then none else some ("Bearer " ++ t)
      | none => none
  , contentTypeHeader :=
      match data with
      | some d => if truthy d then some "application/json" else none
      | none => none
  , data :=
      match data with
      | some d => if truthy d then some d else none
      | none => none }

/-- An axios error response: HTTP status and the (optionally absent)
parsed body. -/
structure ErrResponse where
  status : Nat
  data : Option JsonVal

/-- An axios failure: `response` is absent on a pure network/transport
failure; `message` is the transport-level message (e.g. "Network
Error"). -/
structure AxiosError where
  response : Option ErrResponse
  message : String

/-- What `apiCall`'s catch block can throw: either the server body
payload (`error.response.data`) or the raw axios error object itself. -/
inductive ThrownValue where
  | payload (d : JsonVal)
  | rawError (e : AxiosError)

/-- The catch block of `apiCall`: `throw error.response?.data || error` —
the server body when a response with a truthy body exists, the raw axios
error otherwise. -/
def apiCallCatch (e : AxiosError) : ThrownValue :=
  match e.response with
  | some r =>
    match r.data with
    | some d => if truthy d then ThrownValue.payload d else ThrownValue.rawError e
    | none => ThrownValue.rawError e
  | none => ThrownValue.rawError e

/-- The truthy server body of a failure, when one exists. -/
def truthyBody (e : AxiosError) : Option JsonVal :=
  match e.response with
  | some r =>
    match r.data with
    | some d => if truthy d then some d else none
    | none => none
  | none => none

/-- Stated from the claim's wording: a thrown value is an unnormalized
raw failure when it is the raw error object rather than a message
payload. -/
def isUnnormalizedRaw : ThrownValue → Bool
  | .payload _ => false
  | .rawError _ => true

/-! ## Admin Settings Screens (`renderMarketingTab.handleSaveSettings`) -/

/-- A settings screen's local state: the edit buffer (settings object)
and the `saving` flag that disables the save control. -/
structure SettingsScreen where
  settings : List (String × JsonVal)
  saving : Bool

/-- The awaited outcome of the save `apiCall`: success with a response
body, or a thrown failure. -/
inductive ApiResult where
  | ok (data : JsonVal)
  | err (thrown : ThrownValue)

/-- The observable outcome of a save attempt: the screen state afterwards
and the `alert` message shown to the user. -/
structure SaveOutcome where
  screen : SettingsScreen
  alertMessage : String

/-- `handleSaveSettings` of the marketing tab: sets `saving`, posts the
buffer, alerts a success message on success and the fixed string
`'Error saving settings'` on any failure, and re-enables the save
control in `finally`; the edit buffer is never modified. -/
def handleSaveSettings (s : SettingsScreen) (result : ApiResult) : SaveOutcome :=
  match result with
  | .ok _ =>
    { screen := { s with saving := false }
    , alertMessage := "Marketing settings saved successfully!" }
  | .err _ =>
    { screen := { s with saving := false }
    , alertMessage := "Error saving settings" }

/-! ## Concrete instances used by witnesses -/

/-- A concrete payload decoder: the payload string "P" decodes to an
admin user with `exp = 100`; everything else fails to decode. -/
def decP : String → Option Claims :=
  fun s => if s = "P" then some ⟨"u1", "admin", 100⟩ else none

/-- A store holding the credential "h.P.s" (payload segment "P"). -/
def stA : Store := setItem emptyStore "token" "h.P.s"

/-- Restore with a decodable but expired stored credential
(`¬ (exp * 1000 > now)`): the store is cleared, the token state nulled,
the user left absent. -/
theorem restore_init_expired (dec : String → Option Claims) (st : Store) (c : String)
    (claims : Claims) (nowMs : Int) (h : getItem st "token" = some c)
    (hd : jwtDecode dec c = some claims) (hexp : ¬ claims.exp * 1000 > nowMs) :
    restore dec (initSession st) nowMs =
      { store := removeItem st "token", token := none, user := none, loading := false } := by
  simp only [restore, initSession, h, hd, if_neg hexp]

/-- Restore with a decodable unexpired stored credential: the credential
is retained and the user populated from the claims. -/
theorem restore_init_valid (dec : String → Option Claims) (st : Store) (c : String)
    (claims : Claims) (nowMs : Int) (h : getItem st "token" = some c)
    (hd : jwtDecode dec c = some claims) (hexp : claims.exp * 1000 > nowMs) :
    restore dec (initSession st) nowMs =
      { store := st, token := some c
      , user := some ⟨claims.user_id, claims.user_type⟩, loading := false } := by
  simp only [restore, initSession, h, hd, if_pos hexp]

/-- Removing a key twice is the same as removing it once. -/
theorem removeItem_removeItem (st : Store) (k : String) :
    removeItem (removeItem st k) k = removeItem st k := by
  funext k2
  simp only [removeItem]
  split <;> rfl

/-- Reading the removed key gives nothing. -/
theorem getItem_removeItem (st : Store) (k : String) :
    getItem (removeItem st k) k = none := by
  simp [getItem, removeItem]

/-! ## Claim theorems -/

/-- C7: for every session, credential and user, `login` then `logout`
leaves the Session Store empty (no persisted credential, token and user
cleared), and `logout` is idempotent: a second `logout` from the
resulting Anonymous state is a no-op producing the identical session
state, with the store still empty and the user still absent. -/
theorem C7_login_logout_clears (s : Session) (c : String) (u : UserData) :
    getItem (logout (login s c u)).store "token" = none
    ∧ (logout (login s c u)).user = none
    ∧ (logout (login s c u)).token = none
    ∧ logout (logout s) = logout s
    ∧ getItem (logout (logout (login s c u))).store "token" = none
    ∧ (logout (logout (login s c u))).user = none := by
  have hidem : ∀ s2 : Session, logout (logout s2) = logout s2 := by
    intro s2
    simp only [logout]
    rw [removeItem_removeItem]
  refine ⟨getItem_removeItem _ _, rfl, rfl, hidem s, ?_, rfl⟩
  rw [hidem]
  exact getItem_removeItem _ _

/-- C8: Session Store round-trip: persisting a credential string `c`
under the key `'token'` and reading it back yields exactly `c`, and
persisting overwrites any prior value in the single credential slot;
`login`'s persistence step is exactly this write. -/
theorem C8_store_roundtrip (st : Store) (c cPrior : String) (s : Session) (u : UserData) :
    getItem (setItem st "token" c) "token" = some c
    ∧ getItem (setItem (setItem st "token" cPrior) "token" c) "token" = some c
    ∧ getItem (login s c u).store "token" = some c := by
  refine ⟨?_, ?_, ?_⟩ <;> simp [getItem, setItem, login]

/-- C4 counterexample: the marketing settings save handler receives a
non-success response whose server body carries the message
"Invalid SMTP key" (thrown by `apiCall` as the body payload), yet the
alert shown to the user is the fixed string "Error saving settings",
not the server-supplied message. -/
theorem C4_counterexample :
    (handleSaveSettings ⟨[("sendgrid_api_key", JsonVal.str "k")], false⟩
      (ApiResult.err (apiCallCatch
        ⟨some ⟨400, some (JsonVal.obj [("detail", JsonVal.str "Invalid SMTP key")])⟩,
         "Request failed with status code 400"⟩))).alertMessage
      = "Error saving settings"
    ∧ (handleSaveSettings ⟨[("sendgrid_api_key", JsonVal.str "k")], false⟩
      (ApiResult.err (apiCallCatch
        ⟨some ⟨400, some (JsonVal.obj [("detail", JsonVal.str "Invalid SMTP key")])⟩,
         "Request failed with status code 400"⟩))).alertMessage
      ≠ "Invalid SMTP key" := by
  exact ⟨rfl, by decide⟩

/-- C4 (amended): when a settings save fails, the screen shows the fixed
generic message "Error saving settings" (not the server-supplied
message), the local edit buffer is left unchanged, and the save control
is re-enabled so the user can retry without re-entering data. -/
theorem C4_save_failure_generic_alert (s : SettingsScreen) (t : ThrownValue) :
    (handleSaveSettings s (ApiResult.err t)).screen.settings = s.settings
    ∧ (handleSaveSettings s (ApiResult.err t)).screen.saving = false
    ∧ (handleSaveSettings s (ApiResult.err t)).alertMessage = "Error saving settings" :=
  ⟨rfl, rfl, rfl⟩

/-- C5 counterexample: a pure network/transport failure (no response at
all) is rethrown by `apiCall`'s catch block as the raw axios error
object — an unnormalized raw failure, not an `ApiError` with a generic
message. -/
theorem C5_counterexample :
    isUnnormalizedRaw (apiCallCatch ⟨none, "Network Error"⟩) = true
    ∧ apiCallCatch ⟨none, "Network Error"⟩
        = ThrownValue.rawError ⟨none, "Network Error"⟩ :=
  ⟨rfl, rfl⟩

/-- C5 (amended): on failure `apiCall` throws the server-supplied body
payload when the response carries a truthy body, and otherwise (no
response at all, or an absent/falsy body) rethrows the raw error object
unchanged; no status field is attached and no generic-message
normalization is performed by the client. -/
theorem C5_catch_characterization (e : AxiosError) :
    apiCallCatch e =
      (match truthyBody e with
       | some d => ThrownValue.payload d
       | none => ThrownValue.rawError e) := by
  rcases e with ⟨resp, msg⟩
  cases resp with
  | none => rfl
  | some r =>
    rcases r with ⟨st, d⟩
    cases d with
    | none => rfl
    | some v =>
      by_cases h : truthy v = true
      · simp [apiCallCatch, truthyBody, h]
      · simp [apiCallCatch, truthyBody, h]

/-- C9 counterexample: a supplied empty-string credential attaches no
Authorization header (the source guards with JS truthiness, `if (token)`,
not with presence of the argument). -/
theorem C9_counterexample :
    (apiCallConfig "https://backend/api" "/admin/settings/marketing" "GET"
      none (some "")).authHeader = none :=
  rfl

/-- C9 (amended): `apiCall` builds the request against the configured
base endpoint with the given method; it attaches
`Authorization: Bearer <credential>` exactly when a non-empty (truthy)
credential is supplied, and serializes the body with a
`Content-Type: application/json` header exactly when a truthy body is
present (absent or falsy bodies are not attached). -/
theorem C9_request_building (baseApi endpoint method : String)
    (d : Option JsonVal) (tok : Option String) :
    (apiCallConfig baseApi endpoint method d tok).url = baseApi ++ endpoint
    ∧ (apiCallConfig baseApi endpoint method d tok).method = method
    ∧ (∀ t, tok = some t → t ≠ "" →
        (apiCallConfig baseApi endpoint method d tok).authHeader = some ("Bearer " ++ t))
    ∧ (tok = none → (apiCallConfig baseApi endpoint method d tok).authHeader = none)
    ∧ (tok = some "" → (apiCallConfig baseApi endpoint method d tok).authHeader = none)
    ∧ (∀ v, d = some v → truthy v = true →
        (apiCallConfig baseApi endpoint method d tok).data = some v
        ∧ (apiCallConfig baseApi endpoint method d tok).contentTypeHeader
            = some "application/json")
    ∧ (d = none →
        (apiCallConfig baseApi endpoint method d tok).data = none
        ∧ (apiCallConfig baseApi endpoint method d tok).contentTypeHeader = none)
    ∧ (∀ v, d = some v → truthy v = false →
        (apiCallConfig baseApi endpoint method d tok).data = none
        ∧ (apiCallConfig baseApi endpoint method d tok).contentTypeHeader = none) := by
  refine ⟨rfl, rfl, ?_, ?_, ?_, ?_, ?_, ?_⟩
  · intro t ht hne
    subst ht
    simp [apiCallConfig, hne]
  · intro ht; subst ht; rfl
  · intro ht; subst ht; rfl
  · intro v hv htr
    subst hv
    constructor <;> simp [apiCallConfig, htr]
  · intro hd; subst hd; exact ⟨rfl, rfl⟩
  · intro v hv htr
    subst hv
    constructor <;> simp [apiCallConfig, htr]

/-- Witness for C9 (amended): a POST with body `{}` and credential "tk"
gets `Authorization: Bearer tk` and a JSON content type. -/
theorem C9_request_building_witness :
    (apiCallConfig "https://b/api" "/auth/login" "POST"
      (some (JsonVal.obj [])) (some "tk")).authHeader = some ("Bearer " ++ "tk")
    ∧ (apiCallConfig "https://b/api" "/auth/login" "POST"
      (some (JsonVal.obj [])) (some "tk")).contentTypeHeader = some "application/json" := by
  have h := C9_request_building "https://b/api" "/auth/login" "POST"
    (some (JsonVal.obj [])) (some "tk")
  exact ⟨h.2.2.1 "tk" rfl (by decide), (h.2.2.2.2.2.1 (JsonVal.obj []) rfl rfl).2⟩

/-- C1: for a stored credential decoding to claims, with the current
wall-clock second `nowSec` (so `Date.now()` in milliseconds lies in
`[nowSec*1000, (nowSec+1)*1000)`), if `exp ≤ nowSec` then `restore`
clears the persisted credential and ends Anonymous with the public
storefront view, never the authenticated views; moreover the credential
is treated as expired (user left absent) exactly when `exp ≤ nowSec`,
boundary included. -/
theorem C1_expired_restore_anonymous (dec : String → Option Claims) (st : Store)
    (c : String) (claims : Claims) (nowMs nowSec : Int)
    (hst : getItem st "token" = some c)
    (hdec : jwtDecode dec c = some claims)
    (hlo : nowSec * 1000 ≤ nowMs)
    (hhi : nowMs < (nowSec + 1) * 1000) :
    (claims.exp ≤ nowSec →
      getItem (restore dec (initSession st) nowMs).store "token" = none
      ∧ (restore dec (initSession st) nowMs).user = none
      ∧ (restore dec (initSession st) nowMs).token = none
      ∧ selectView (restore dec (initSession st) nowMs) = View.publicStore
      ∧ selectView (restore dec (initSession st) nowMs) ≠ View.adminPanel
      ∧ selectView (restore dec (initSession st) nowMs) ≠ View.dashboard)
    ∧ ((restore dec (initSession st) nowMs).user = none ↔ claims.exp ≤ nowSec) := by
  by_cases hexp : claims.exp ≤ nowSec
  · have hcond : ¬ claims.exp * 1000 > nowMs := by omega
    rw [restore_init_expired dec st c claims nowMs hst hdec hcond]
    refine ⟨fun _ => ⟨getItem_removeItem _ _, rfl, rfl, rfl, by simp [selectView], by simp [selectView]⟩, ?_⟩
    simpa using hexp
  · have hcond : claims.exp * 1000 > nowMs := by omega
    rw [restore_init_valid dec st c claims nowMs hst hdec hcond]
    refine ⟨fun h => absurd h hexp, ?_⟩
    simp [hexp]

/-- Witness for C1 at the boundary: the stored credential of `stA`
decodes with `exp = 100` and the clock reads 100500 ms (second 100),
so `exp ≤ nowSec` holds with equality and restore clears the store and
leaves the user absent. -/
theorem C1_expired_restore_anonymous_witness :
    getItem (restore decP (initSession stA) 100500).store "token" = none
    ∧ (restore decP (initSession stA) 100500).user = none := by
  have h := (C1_expired_restore_anonymous decP stA "h.P.s" ⟨"u1", "admin", 100⟩
    100500 100 (by decide) rfl (by decide) (by decide)).1 (by decide)
  exact ⟨h.1, h.2.1⟩

/-- C2: view selection is a pure function of the session's loading flag
and user role: while restoring the loading view is shown; with no user
the public storefront; with role "admin" the admin panel; with any other
role the generic dashboard; and for a well-formed unexpired stored
credential, `restore` followed by view selection yields the view
matching the credential's role. -/
theorem C2_view_selection (dec : String → Option Claims) (st : Store)
    (c : String) (claims : Claims) (nowMs : Int)
    (hst : getItem st "token" = some c)
    (hdec : jwtDecode dec c = some claims)
    (hval : claims.exp * 1000 > nowMs) :
    selectView (restore dec (initSession st) nowMs) = roleView claims.user_type
    ∧ (∀ s : Session, s.loading = true → selectView s = View.loadingView)
    ∧ (∀ s : Session, s.loading = false → s.user = none → selectView s = View.publicStore)
    ∧ (∀ (s : Session) (u : UserData), s.loading = false → s.user = some u →
        u.user_type = "admin" → selectView s = View.adminPanel)
    ∧ (∀ (s : Session) (u : UserData), s.loading = false → s.user = some u →
        u.user_type ≠ "admin" → selectView s = View.dashboard)
    ∧ (∀ s1 s2 : Session, s1.loading = s2.loading → s1.user = s2.user →
        selectView s1 = selectView s2) := by
  refine ⟨?_, ?_, ?_, ?_, ?_, ?_⟩
  · rw [restore_init_valid dec st c claims nowMs hst hdec hval]
    simp [selectView, roleView]
  · intro s h; simp [selectView, h]
  · intro s h hu; simp [selectView, h, hu]
  · intro s u h hu hrole; simp [selectView, h, hu, hrole]
  · intro s u h hu hrole; simp [selectView, h, hu, hrole]
  · intro s1 s2 hl hu; simp only [selectView, hl, hu]

/-- Witness for C2: the stored admin credential of `stA`, unexpired at
50 ms, restores to a session whose selected view is the admin panel. -/
theorem C2_view_selection_witness :
    selectView (restore decP (initSession stA) 50) = roleView "admin" :=
  (C2_view_selection decP stA "h.P.s" ⟨"u1", "admin", 100⟩ 50
    (by decide) rfl (by decide)).1

end Marketplace
